import Mathlib

/-!
Verification of the spectre-xenon/websocket WebSocket engine (Go) against its
natural-language specification.

The Go sources are shallowly embedded: bytes are `Nat` values (with `< 256`
bounds stated where arithmetic depends on them), byte slices are `List Nat`,
the buffered network stream is the list of bytes still unread, and the
`compress/flate` library (external to the repository) is abstracted by
function parameters.  Each definition mirrors one Go function and carries its
name.
-/

namespace Websocket

/-! ## Masking primitive (`mask.go`, also `util.go`) -/

/-- Embeds `binary.BigEndian.Uint32` of four bytes. -/
def word32 (b0 b1 b2 b3 : Nat) : Nat :=
  ((b0 * 256 + b1) * 256 + b2) * 256 + b3

/-- Embeds `binary.BigEndian.PutUint32`: the four big-endian bytes of a 32-bit word. -/
def word32Bytes (w : Nat) : List Nat :=
  [w / 16777216 % 256, w / 65536 % 256, w / 256 % 256, w % 256]

/-- The word-by-word loop of `toggleMask` (`mask.go`): whole 4-byte words are
XORed against the big-endian 32-bit word of the key, the trailing 0-3 bytes
are XORed individually with `maskingKey[i % 4]`. -/
def toggleMaskAux (m32 k0 k1 k2 : Nat) : List Nat → List Nat
  | b0 :: b1 :: b2 :: b3 :: rest =>
      word32Bytes (word32 b0 b1 b2 b3 ^^^ m32) ++ toggleMaskAux m32 k0 k1 k2 rest
  | [a, b, c] => [a ^^^ k0, b ^^^ k1, c ^^^ k2]
  | [a, b] => [a ^^^ k0, b ^^^ k1]
  | [a] => [a ^^^ k0]
  | [] => []

/-- Embeds `toggleMask(payload, maskingKey)` (`mask.go`).  The Go function mutates
`payload` in place; the embedding returns the new contents.  A key that is
not exactly 4 bytes makes `binary.BigEndian.Uint32` panic in Go; that case is
unreachable in the engine (the parser always hands a 4-byte key) and is
embedded as the identity. -/
def toggleMask (payload maskingKey : List Nat) : List Nat :=
  match maskingKey with
  | [k0, k1, k2, k3] => toggleMaskAux (word32 k0 k1 k2 k3) k0 k1 k2 payload
  | _ => payload

theorem word32Bytes_word32 (b0 b1 b2 b3 : Nat)
    (h0 : b0 < 256) (h1 : b1 < 256) (h2 : b2 < 256) (h3 : b3 < 256) :
    word32Bytes (word32 b0 b1 b2 b3) = [b0, b1, b2, b3] := by
  simp only [word32, word32Bytes, List.cons.injEq, and_true]
  refine ⟨?_, ?_, ?_, ?_⟩ <;> omega

theorem word32_word32Bytes (w : Nat) (hw : w < 4294967296) :
    word32 (w / 16777216 % 256) (w / 65536 % 256) (w / 256 % 256) (w % 256) = w := by
  simp only [word32]
  omega

theorem word32_lt (b0 b1 b2 b3 : Nat)
    (h0 : b0 < 256) (h1 : b1 < 256) (h2 : b2 < 256) (h3 : b3 < 256) :
    word32 b0 b1 b2 b3 < 4294967296 := by
  simp only [word32]; omega

theorem toggleMaskAux_involutive (m32 k0 k1 k2 : Nat)
    (hm : m32 < 4294967296) :
    ∀ p : List Nat, (∀ x ∈ p, x < 256) →
      toggleMaskAux m32 k0 k1 k2 (toggleMaskAux m32 k0 k1 k2 p) = p
  | b0 :: b1 :: b2 :: b3 :: rest, h => by
      have h0 : b0 < 256 := h b0 (by simp)
      have h1 : b1 < 256 := h b1 (by simp)
      have h2 : b2 < 256 := h b2 (by simp)
      have h3 : b3 < 256 := h b3 (by simp)
      have hw : word32 b0 b1 b2 b3 < 4294967296 := word32_lt _ _ _ _ h0 h1 h2 h3
      have hx : word32 b0 b1 b2 b3 ^^^ m32 < 4294967296 :=
        Nat.xor_lt_two_pow (n := 32) hw hm
      have ih := toggleMaskAux_involutive m32 k0 k1 k2 hm rest
        (fun x hx => h x (by simp [hx]))
      show toggleMaskAux m32 k0 k1 k2
          (word32Bytes (word32 b0 b1 b2 b3 ^^^ m32) ++ toggleMaskAux m32 k0 k1 k2 rest)
        = b0 :: b1 :: b2 :: b3 :: rest
      simp only [word32Bytes, List.cons_append, List.nil_append, toggleMaskAux]
      rw [word32_word32Bytes _ hx, Nat.xor_cancel_right]
      simp only [List.append_eq, List.nil_append, ih, List.cons.injEq, and_true]
      unfold word32
      refine ⟨?_, ?_, ?_, ?_⟩ <;> omega
  | [a, b, c], _ => by
      simp [toggleMaskAux, Nat.xor_cancel_right]
  | [a, b], _ => by
      simp [toggleMaskAux, Nat.xor_cancel_right]
  | [a], _ => by
      simp [toggleMaskAux, Nat.xor_cancel_right]
  | [], _ => by
      simp [toggleMaskAux]

/-- C2: XOR-masking with the same 4-byte key twice restores the payload. -/
theorem toggleMask_involutive (p : List Nat) (k0 k1 k2 k3 : Nat)
    (hp : ∀ x ∈ p, x < 256)
    (h0 : k0 < 256) (h1 : k1 < 256) (h2 : k2 < 256) (h3 : k3 < 256) :
    toggleMask (toggleMask p [k0, k1, k2, k3]) [k0, k1, k2, k3] = p := by
  simp only [toggleMask]
  exact toggleMaskAux_involutive _ _ _ _ (word32_lt _ _ _ _ h0 h1 h2 h3) p hp

theorem toggleMaskAux_length (m32 k0 k1 k2 : Nat) :
    ∀ p : List Nat, (toggleMaskAux m32 k0 k1 k2 p).length = p.length
  | _ :: _ :: _ :: _ :: rest => by
      simp [toggleMaskAux, word32Bytes, toggleMaskAux_length m32 k0 k1 k2 rest]
  | [_, _, _] => rfl
  | [_, _] => rfl
  | [_] => rfl
  | [] => rfl

theorem toggleMask_length (p k : List Nat) :
    (toggleMask p k).length = p.length := by
  unfold toggleMask
  split
  · exact toggleMaskAux_length _ _ _ _ p
  · rfl

/-! ## Frame header codec (`flate.go`, `Headers` section) -/

/-- Opcode constants (`Opcode` enum). -/
def ContinuationFrame : Nat := 0

def TextMessage : Nat := 1

def BinaryMessage : Nat := 2

def CloseFrame : Nat := 8

def PingFrame : Nat := 9

def PongFrame : Nat := 10

/-- Close status code constants. -/
def CloseNormal : Nat := 1000

def CloseGoingAway : Nat := 1001

def CloseProtocolError : Nat := 1002

def CloseMistachedPayloadData : Nat := 1007

def CloseInternalServerErr : Nat := 1011

def maxControlFramePayloadSize : Nat := 125

/-- Header bit masks. -/
def finMask : Nat := 128

def rsv1Mask : Nat := 64

def rsv2Mask : Nat := 32

def rsv3Mask : Nat := 16

def opcodeMask : Nat := 15

def maskMask : Nat := 128

def payloadLengthMask : Nat := 127

/-- Embeds `readToBool` (`flate.go`). -/
def readToBool (b mask : Nat) : Bool := b &&& mask != 0

/-- The `Headers` frame-header value.  `Opcode` is a Go `byte`;
`MaskingKey` is the nil slice (`[]`) when the mask bit is absent. -/
structure Headers where
  FIN : Bool
  RSV1 : Bool
  RSV2 : Bool
  RSV3 : Bool
  Opcode : Nat
  Mask : Bool
  PayloadLength : Nat
  MaskingKey : List Nat
deriving Repr, DecidableEq

/-- Embeds `Conn.peekDiscard(n)` (`part_003`): peek `n` bytes and discard them;
an error (short stream) consumes nothing and surfaces as `none`. -/
def peekDiscard (n : Nat) (s : List Nat) : Option (List Nat × List Nat) :=
  if n ≤ s.length then some (s.take n, s.drop n) else none

/-- Embeds `binary.BigEndian.Uint16`. -/
def bigEndian16 (b0 b1 : Nat) : Nat := b0 * 256 + b1

/-- Embeds `binary.BigEndian.Uint64`. -/
def bigEndian64 (b0 b1 b2 b3 b4 b5 b6 b7 : Nat) : Nat :=
  ((((((b0 * 256 + b1) * 256 + b2) * 256 + b3) * 256 + b4) * 256 + b5) * 256 + b6) * 256 + b7

/-- Embeds `Conn.parseFrameHeaders` (`flate.go`): reads the 2-14 header bytes from
the stream and returns the header together with the rest of the stream;
`none` models the surfaced short-read error. -/
def parseFrameHeaders (s : List Nat) : Option (Headers × List Nat) :=
  match peekDiscard 2 s with
  | none => none
  | some (buf, s1) =>
    let b0 := buf.getD 0 0
    let b1 := buf.getD 1 0
    let fin := readToBool b0 finMask
    let rsv1 := readToBool b0 rsv1Mask
    let rsv2 := readToBool b0 rsv2Mask
    let rsv3 := readToBool b0 rsv3Mask
    let opcode := b0 &&& opcodeMask
    let mask := readToBool b1 maskMask
    let pl0 := b1 &&& payloadLengthMask
    let lenStep : Option (Nat × List Nat) :=
      if pl0 = 126 then
        match peekDiscard 2 s1 with
        | none => none
        | some (plBuf, s2) => some (bigEndian16 (plBuf.getD 0 0) (plBuf.getD 1 0), s2)
      else if pl0 = 127 then
        match peekDiscard 8 s1 with
        | none => none
        | some (plBuf, s2) =>
          some (bigEndian64 (plBuf.getD 0 0) (plBuf.getD 1 0) (plBuf.getD 2 0) (plBuf.getD 3 0)
            (plBuf.getD 4 0) (plBuf.getD 5 0) (plBuf.getD 6 0) (plBuf.getD 7 0), s2)
      else some (pl0, s1)
    match lenStep with
    | none => none
    | some (payloadLength, s2) =>
      if mask then
        match peekDiscard 4 s2 with
        | none => none
        | some (maskingKey, s3) =>
          some (⟨fin, rsv1, rsv2, rsv3, opcode, mask, payloadLength, maskingKey⟩, s3)
      else
        some (⟨fin, rsv1, rsv2, rsv3, opcode, mask, payloadLength, []⟩, s2)

/-- Embeds `binary.BigEndian.PutUint16` after the Go `uint16(pl)` cast. -/
def putUint16 (pl : Nat) : List Nat := [pl / 256 % 256, pl % 256]

/-- Embeds `binary.BigEndian.PutUint64`. -/
def putUint64 (pl : Nat) : List Nat :=
  [pl / 72057594037927936 % 256, pl / 281474976710656 % 256, pl / 1099511627776 % 256,
   pl / 4294967296 % 256, pl / 16777216 % 256, pl / 65536 % 256, pl / 256 % 256, pl % 256]

/-- Embeds `makeFrameHeadersBuf` (`flate.go`): emits the 2-14 header bytes. -/
def makeFrameHeadersBuf (h : Headers) : List Nat :=
  let byte0 :=
    (((((if h.FIN then finMask else 0) ||| (if h.RSV1 then rsv1Mask else 0)) |||
      (if h.RSV2 then rsv2Mask else 0)) ||| (if h.RSV3 then rsv3Mask else 0)) ||| h.Opcode)
  let byte1m := if h.Mask then maskMask else 0
  let pl := h.PayloadLength
  let lenBytes : List Nat :=
    if pl ≤ 125 then [byte1m ||| pl]
    else if pl ≤ 65535 then (byte1m ||| 126) :: putUint16 pl
    else (byte1m ||| 127) :: putUint64 pl
  ([byte0] ++ lenBytes) ++ (if h.Mask then h.MaskingKey else [])

/-- Validity of the header fields as the roundtrip claim states them: the
masking key is a 4-byte value present iff the mask bit is set, the payload
length fits 63 bits, the opcode is the 4-bit field of the data model, and
control opcodes (0x8-0xF) are final with payloads of at most 125 bytes. -/
def validHeaders (h : Headers) : Prop :=
  (h.Mask → h.MaskingKey.length = 4) ∧
  (¬h.Mask → h.MaskingKey = []) ∧
  h.PayloadLength ≤ 9223372036854775807 ∧
  h.Opcode < 16 ∧
  (8 ≤ h.Opcode → h.FIN = true ∧ h.PayloadLength ≤ 125)

theorem byte0_fields : ∀ (f r1 r2 r3 : Bool), ∀ op < 16,
    ((((((if f then 128 else 0) ||| (if r1 then 64 else 0)) |||
      (if r2 then 32 else 0)) ||| (if r3 then 16 else 0)) ||| op) &&& 15 = op) ∧
    (readToBool (((((if f then 128 else 0) ||| (if r1 then 64 else 0)) |||
      (if r2 then 32 else 0)) ||| (if r3 then 16 else 0)) ||| op) 128 = f) ∧
    (readToBool (((((if f then 128 else 0) ||| (if r1 then 64 else 0)) |||
      (if r2 then 32 else 0)) ||| (if r3 then 16 else 0)) ||| op) 64 = r1) ∧
    (readToBool (((((if f then 128 else 0) ||| (if r1 then 64 else 0)) |||
      (if r2 then 32 else 0)) ||| (if r3 then 16 else 0)) ||| op) 32 = r2) ∧
    (readToBool (((((if f then 128 else 0) ||| (if r1 then 64 else 0)) |||
      (if r2 then 32 else 0)) ||| (if r3 then 16 else 0)) ||| op) 16 = r3) := by
  decide

theorem byte1_fields : ∀ (m : Bool), ∀ pl < 128,
    (readToBool ((if m then 128 else 0) ||| pl) 128 = m) ∧
    (((if m then 128 else 0) ||| pl) &&& 127 = pl) := by
  decide

theorem peekDiscard_exact (l s : List Nat) (n : Nat) (hl : l.length = n) :
    peekDiscard n (l ++ s) = some (l, s) := by
  subst hl
  unfold peekDiscard
  rw [if_pos (by simp), List.take_left, List.drop_left]

/-- The header emitted by `makeFrameHeadersBuf` parses back to the same
header, consuming exactly the emitted bytes and leaving any following bytes
(the frame payload) untouched. -/
theorem parseFrameHeaders_makeFrameHeadersBuf (h : Headers) (hv : validHeaders h)
    (rest : List Nat) :
    parseFrameHeaders (makeFrameHeadersBuf h ++ rest) = some (h, rest) := by
  obtain ⟨fin, r1, r2, r3, op, mk, pl, key⟩ := h
  obtain ⟨hkey, hnokey, hpl, hop, -⟩ := hv
  simp only at hkey hnokey hpl hop
  have hb0 := byte0_fields fin r1 r2 r3 op hop
  set byte0 := (((((if fin then (128 : Nat) else 0) ||| (if r1 then 64 else 0)) |||
      (if r2 then 32 else 0)) ||| (if r3 then 16 else 0)) ||| op) with hbyte0
  have hkeyComp : (if mk then key else []) = key := by
    cases mk
    · simp [hnokey (by simp)]
    · simp
  by_cases hp1 : pl ≤ 125
  · -- one length byte
    have hb1 := byte1_fields mk pl (by omega)
    have hshape : makeFrameHeadersBuf ⟨fin, r1, r2, r3, op, mk, pl, key⟩ ++ rest
        = byte0 :: ((if mk then (128 : Nat) else 0) ||| pl) :: (key ++ rest) := by
      simp only [makeFrameHeadersBuf, finMask, rsv1Mask, rsv2Mask, rsv3Mask, maskMask,
        if_pos hp1, hkeyComp]
      simp [hbyte0]
    rw [hshape]
    unfold parseFrameHeaders
    rw [show peekDiscard 2 (byte0 :: ((if mk then (128 : Nat) else 0) ||| pl) :: (key ++ rest))
        = some ([byte0, (if mk then (128 : Nat) else 0) ||| pl], key ++ rest) from
      peekDiscard_exact [byte0, _] _ 2 rfl]
    simp only [List.getD_cons_zero, List.getD_cons_succ, opcodeMask, payloadLengthMask,
      finMask, rsv1Mask, rsv2Mask, rsv3Mask, maskMask]
    rw [hb1.2]
    rw [if_neg (by omega), if_neg (by omega)]
    simp only [hb0.1, hb0.2.1, hb0.2.2.1, hb0.2.2.2.1, hb0.2.2.2.2, hb1.1]
    cases mk
    · simp only [Bool.false_eq_true, if_false]
      rw [hnokey (by simp)] at *
      simp
    · simp only [if_true]
      rw [show peekDiscard 4 (key ++ rest) = some (key, rest) from
        peekDiscard_exact key rest 4 (hkey rfl)]
  · by_cases hp2 : pl ≤ 65535
    · -- 2 extra length bytes
      have hb1 := byte1_fields mk 126 (by omega)
      have hshape : makeFrameHeadersBuf ⟨fin, r1, r2, r3, op, mk, pl, key⟩ ++ rest
          = byte0 :: ((if mk then (128 : Nat) else 0) ||| 126) ::
            (pl / 256 % 256) :: (pl % 256) :: (key ++ rest) := by
        simp only [makeFrameHeadersBuf, finMask, rsv1Mask, rsv2Mask, rsv3Mask, maskMask,
          if_neg hp1, if_pos hp2, putUint16, hkeyComp]
        simp [hbyte0]
      rw [hshape]
      unfold parseFrameHeaders
      rw [show peekDiscard 2 (byte0 :: ((if mk then (128 : Nat) else 0) ||| 126) ::
            ((pl / 256 % 256) :: (pl % 256) :: (key ++ rest)))
          = some ([byte0, (if mk then (128 : Nat) else 0) ||| 126],
            (pl / 256 % 256) :: (pl % 256) :: (key ++ rest)) from
        peekDiscard_exact [byte0, _] _ 2 rfl]
      simp only [List.getD_cons_zero, List.getD_cons_succ, opcodeMask, payloadLengthMask,
        finMask, rsv1Mask, rsv2Mask, rsv3Mask, maskMask]
      rw [hb1.2, if_pos rfl]
      rw [show peekDiscard 2 ((pl / 256 % 256) :: (pl % 256) :: (key ++ rest))
          = some ([pl / 256 % 256, pl % 256], key ++ rest) from
        peekDiscard_exact [_, _] _ 2 rfl]
      simp only [List.getD_cons_zero, List.getD_cons_succ]
      have hbe : bigEndian16 (pl / 256 % 256) (pl % 256) = pl := by
        unfold bigEndian16; omega
      rw [hbe]
      simp only [hb0.1, hb0.2.1, hb0.2.2.1, hb0.2.2.2.1, hb0.2.2.2.2, hb1.1]
      cases mk
      · simp only [Bool.false_eq_true, if_false]
        rw [hnokey (by simp)] at *
        simp
      · simp only [if_true]
        rw [show peekDiscard 4 (key ++ rest) = some (key, rest) from
          peekDiscard_exact key rest 4 (hkey rfl)]
    · -- 8 extra length bytes
      have hb1 := byte1_fields mk 127 (by omega)
      have hshape : makeFrameHeadersBuf ⟨fin, r1, r2, r3, op, mk, pl, key⟩ ++ rest
          = byte0 :: ((if mk then (128 : Nat) else 0) ||| 127) ::
            (pl / 72057594037927936 % 256) :: (pl / 281474976710656 % 256) ::
            (pl / 1099511627776 % 256) :: (pl / 4294967296 % 256) ::
            (pl / 16777216 % 256) :: (pl / 65536 % 256) ::
            (pl / 256 % 256) :: (pl % 256) :: (key ++ rest) := by
        simp only [makeFrameHeadersBuf, finMask, rsv1Mask, rsv2Mask, rsv3Mask, maskMask,
          if_neg hp1, if_neg hp2, putUint64, hkeyComp]
        simp [hbyte0]
      rw [hshape]
      unfold parseFrameHeaders
      rw [show peekDiscard 2 (byte0 :: ((if mk then (128 : Nat) else 0) ||| 127) ::
            ((pl / 72057594037927936 % 256) :: (pl / 281474976710656 % 256) ::
             (pl / 1099511627776 % 256) :: (pl / 4294967296 % 256) ::
             (pl / 16777216 % 256) :: (pl / 65536 % 256) ::
             (pl / 256 % 256) :: (pl % 256) :: (key ++ rest)))
          = some ([byte0, (if mk then (128 : Nat) else 0) ||| 127],
            (pl / 72057594037927936 % 256) :: (pl / 281474976710656 % 256) ::
            (pl / 1099511627776 % 256) :: (pl / 4294967296 % 256) ::
            (pl / 16777216 % 256) :: (pl / 65536 % 256) ::
            (pl / 256 % 256) :: (pl % 256) :: (key ++ rest)) from
        peekDiscard_exact [byte0, _] _ 2 rfl]
      simp only [List.getD_cons_zero, List.getD_cons_succ, opcodeMask, payloadLengthMask,
        finMask, rsv1Mask, rsv2Mask, rsv3Mask, maskMask]
      rw [hb1.2]
      rw [if_neg (by omega), if_pos rfl]
      rw [show peekDiscard 8 ((pl / 72057594037927936 % 256) :: (pl / 281474976710656 % 256) ::
            (pl / 1099511627776 % 256) :: (pl / 4294967296 % 256) ::
            (pl / 16777216 % 256) :: (pl / 65536 % 256) ::
            (pl / 256 % 256) :: (pl % 256) :: (key ++ rest))
          = some ([pl / 72057594037927936 % 256, pl / 281474976710656 % 256,
            pl / 1099511627776 % 256, pl / 4294967296 % 256,
            pl / 16777216 % 256, pl / 65536 % 256, pl / 256 % 256, pl % 256], key ++ rest) from
        peekDiscard_exact [_, _, _, _, _, _, _, _] _ 8 rfl]
      simp only [List.getD_cons_zero, List.getD_cons_succ]
      have hbe : bigEndian64 (pl / 72057594037927936 % 256) (pl / 281474976710656 % 256)
          (pl / 1099511627776 % 256) (pl / 4294967296 % 256) (pl / 16777216 % 256)
          (pl / 65536 % 256) (pl / 256 % 256) (pl % 256) = pl := by
        unfold bigEndian64; omega
      rw [hbe]
      simp only [hb0.1, hb0.2.1, hb0.2.2.1, hb0.2.2.2.1, hb0.2.2.2.2, hb1.1]
      cases mk
      · simp only [Bool.false_eq_true, if_false]
        rw [hnokey (by simp)] at *
        simp
      · simp only [if_true]
        rw [show peekDiscard 4 (key ++ rest) = some (key, rest) from
          peekDiscard_exact key rest 4 (hkey rfl)]

/-- C1: for every frame header with valid fields, parsing the emitted byte
sequence consumes the whole sequence and yields the header back
field-for-field. -/
theorem frame_header_roundtrip (h : Headers) (hv : validHeaders h) :
    parseFrameHeaders (makeFrameHeadersBuf h) = some (h, []) := by
  have := parseFrameHeaders_makeFrameHeadersBuf h hv []
  simpa using this

/-- Witness for `frame_header_roundtrip` at a concrete valid header
(a masked final ping frame with a 5-byte payload). -/
theorem frame_header_roundtrip_witness :
    validHeaders ⟨true, false, false, false, 9, true, 5, [1, 2, 3, 4]⟩ ∧
    parseFrameHeaders (makeFrameHeadersBuf ⟨true, false, false, false, 9, true, 5, [1, 2, 3, 4]⟩)
      = some (⟨true, false, false, false, 9, true, 5, [1, 2, 3, 4]⟩, []) := by
  have hv : validHeaders ⟨true, false, false, false, 9, true, 5, [1, 2, 3, 4]⟩ := by
    unfold validHeaders
    refine ⟨fun _ => rfl, fun h => absurd rfl h, ?_, ?_, fun _ => ⟨rfl, ?_⟩⟩ <;> decide
  exact ⟨hv, frame_header_roundtrip _ hv⟩

/-- Witness for `toggleMask_involutive` at a concrete 7-byte payload (length
not divisible by 4) and key. -/
theorem toggleMask_involutive_witness :
    toggleMask (toggleMask [1, 2, 3, 4, 5, 6, 7] [17, 34, 51, 68]) [17, 34, 51, 68]
      = [1, 2, 3, 4, 5, 6, 7] :=
  toggleMask_involutive [1, 2, 3, 4, 5, 6, 7] 17 34 51 68 (by decide)
    (by decide) (by decide) (by decide) (by decide)

/-! ## UTF-8 validation (`unicode/utf8.Valid`, Go standard library)

The engine validates text payloads and close reasons with `utf8.Valid`.
The validator below accepts exactly the well-formed UTF-8 byte sequences
(RFC 3629: no overlong forms, no surrogates, nothing above U+10FFFF),
which is `utf8.Valid`'s acceptance set. -/

/-- A UTF-8 continuation byte: `0x80-0xBF`. -/
def isCont (b : Nat) : Bool := 128 ≤ b && b ≤ 191

/-- Go `unicode/utf8.Valid` over the byte list. -/
def utf8Valid : List Nat → Bool
  | [] => true
  | b :: rest =>
    if b ≤ 127 then utf8Valid rest
    else if 194 ≤ b && b ≤ 223 then
      match rest with
      | c1 :: rest' => isCont c1 && utf8Valid rest'
      | [] => false
    else if b = 224 then
      match rest with
      | c1 :: c2 :: rest' => (160 ≤ c1 && c1 ≤ 191) && isCont c2 && utf8Valid rest'
      | _ => false
    else if 225 ≤ b && b ≤ 236 then
      match rest with
      | c1 :: c2 :: rest' => isCont c1 && isCont c2 && utf8Valid rest'
      | _ => false
    else if b = 237 then
      match rest with
      | c1 :: c2 :: rest' => (128 ≤ c1 && c1 ≤ 159) && isCont c2 && utf8Valid rest'
      | _ => false
    else if 238 ≤ b && b ≤ 239 then
      match rest with
      | c1 :: c2 :: rest' => isCont c1 && isCont c2 && utf8Valid rest'
      | _ => false
    else if b = 240 then
      match rest with
      | c1 :: c2 :: c3 :: rest' =>
        (144 ≤ c1 && c1 ≤ 191) && isCont c2 && isCont c3 && utf8Valid rest'
      | _ => false
    else if 241 ≤ b && b ≤ 243 then
      match rest with
      | c1 :: c2 :: c3 :: rest' => isCont c1 && isCont c2 && isCont c3 && utf8Valid rest'
      | _ => false
    else if b = 244 then
      match rest with
      | c1 :: c2 :: c3 :: rest' =>
        (128 ≤ c1 && c1 ≤ 143) && isCont c2 && isCont c3 && utf8Valid rest'
      | _ => false
    else false

/-! ## Connection / message engine (`part_002`)

`part_002` is the current `Conn`: frame loop, reassembly, control handling,
close state machine, and the compressed send path.  The `compress/flate`
pipeline (`flatter.InFlate` / `flatter.DeFlate`) wraps the Go standard
library and is abstracted by function parameters of the model; everything
else is transcribed from the source.

Outbound control frames are recorded as the arguments of `sendControl`
(opcode, status code, reason) together with a flag telling whether the
underlying stream was still open when the write was attempted; the masking
of outbound client frames uses a fresh random key and does not affect any
of those observables. -/

/-- The connection configuration and the abstracted DEFLATE pipeline. -/
structure ConnModel where
  isServer : Bool
  ccEnabled : Bool
  compressionThreshold : Nat
  inflate : List Nat → Option (List Nat)
  deflate : List Nat → Option (List Nat)

/-- The mutable connection state visible to the embedded engine. -/
structure EngineState where
  stream : List Nat
  events : List (Nat × Nat × List Nat × Bool)
  closed : Bool
  netClosed : Bool
deriving Repr, DecidableEq

/-- The engine's error values (`conn.go` error variables plus the
pass-through errors of the external pipeline and the network). -/
inductive WsErr where
  | invalidMessageType
  | badMessage
  | utf8
  | normalClose
  | unexpectedClose
  | eof
  | inflateFail
  | deflateFail
  | writeFail
deriving Repr, DecidableEq

/-- Embeds `Conn.read(n)` (`part_002`): `io.ReadFull` from the buffered reader;
a short stream is the `io.EOF`/`io.ErrUnexpectedEOF` case. -/
def connRead (n : Nat) (s : List Nat) : Option (List Nat × List Nat) :=
  if n ≤ s.length then some (s.take n, s.drop n) else none

/-- Embeds `sendControl` (`part_002`): builds and writes a control frame.  The model
records `(opcode, status, reason, streamWasOpen)` and reports the write
error a closed stream produces. -/
def sendControl (mt status : Nat) (reason : List Nat) (st : EngineState) :
    EngineState × Option WsErr :=
  ({st with events := st.events ++ [(mt, status, reason, !st.netClosed)]},
    if st.netClosed then some .writeFail else none)

/-- Embeds `isEOF` (`part_002`): only `io.EOF`/`io.ErrUnexpectedEOF` count. -/
def isEOF : WsErr → Bool
  | .eof => true
  | _ => false

/-- Embeds `closeWithErr` (`part_002`): best-effort close frame, then mark the
connection closed and close the stream. -/
def closeWithErr (code : Nat) (st : EngineState) :
    EngineState × Except WsErr (Nat × List Nat) :=
  let (st1, werr) := sendControl CloseFrame code [] st
  if werr.any isEOF then (st1, .error .unexpectedClose)
  else
    ({st1 with closed := true, netClosed := true},
      .error (if code = CloseMistachedPayloadData then .utf8 else .badMessage))

/-- Embeds `validCloseFrameCodes` (`flate.go`): the close codes mapped to `true`;
any code missing from the Go map reads back as `false`. -/
def validCloseFrameCodes (code : Nat) : Bool :=
  code ∈ [1000, 1001, 1002, 1003, 1004, 1007, 1008, 1009, 1010, 1011]

/-- Modelled from the spec: `minNonCloseStatusCode` is not under `src/`;
§3 accepts application-range codes `[3000,4999]` as opaque. -/
def minNonCloseStatusCode : Nat := 3000

/-- Modelled from the spec: `maxNonCloseStatusCode` is not under `src/`;
§3 accepts application-range codes `[3000,4999]` as opaque. -/
def maxNonCloseStatusCode : Nat := 4999

/-- Modelled from the spec: `isPingPongFrame` is not under `src/`; the read
loop "transparently answers pings and drops pongs", so the helper holds of
exactly the ping and pong opcodes. -/
def isPingPongFrame (op : Nat) : Bool := op = PingFrame || op = PongFrame

/-- Modelled from the spec: `isControlFrame` is not under `src/`; the
glossary defines a control frame as one with opcode Close/Ping/Pong. -/
def isControlFrame (op : Nat) : Bool := op = CloseFrame || op = PingFrame || op = PongFrame

/-- Embeds `handleTextMessage` (`part_002`). -/
def handleTextMessage (c : ConnModel) (h : Headers) (st : EngineState) :
    EngineState × Except WsErr (List Nat) :=
  match connRead h.PayloadLength st.stream with
  | none => (st, .error .eof)
  | some (payload, s') =>
    let st := {st with stream := s'}
    let payload := if c.isServer then toggleMask payload h.MaskingKey else payload
    match (if h.FIN && c.ccEnabled && h.RSV1 then c.inflate payload else some payload) with
    | none => (st, .error .inflateFail)
    | some payload =>
      if h.FIN && !utf8Valid payload then (st, .error .utf8)
      else (st, .ok payload)

/-- Embeds `handleBinaryMessage` (`part_002`); also handles continuation frames. -/
def handleBinaryMessage (c : ConnModel) (h : Headers) (st : EngineState) :
    EngineState × Except WsErr (List Nat) :=
  match connRead h.PayloadLength st.stream with
  | none => (st, .error .eof)
  | some (payload, s') =>
    let st := {st with stream := s'}
    let payload := if c.isServer then toggleMask payload h.MaskingKey else payload
    match (if h.FIN && c.ccEnabled && h.RSV1 then c.inflate payload else some payload) with
    | none => (st, .error .inflateFail)
    | some payload => (st, .ok payload)

/-- Embeds `handleCloseFrame` (`part_002`).  The deferred block marks the
connection closed and closes the stream on every return path, after the
body has (possibly) echoed a close frame. -/
def handleCloseFrame (c : ConnModel) (h : Headers) (st : EngineState) :
    EngineState × Except WsErr (List Nat) :=
  let finish := fun (st : EngineState) (r : Except WsErr (List Nat)) =>
    ({st with closed := true, netClosed := true}, r)
  if h.PayloadLength = 0 then
    let (st1, _) := sendControl CloseFrame CloseNormal [] st
    finish st1 (.error .normalClose)
  else if h.PayloadLength < 2 || h.PayloadLength > maxControlFramePayloadSize then
    finish st (.error .badMessage)
  else if !h.FIN then finish st (.error .badMessage)
  else if h.RSV1 then finish st (.error .badMessage)
  else
    match connRead h.PayloadLength st.stream with
    | none => finish st (.error .eof)
    | some (payload, s') =>
      let st := {st with stream := s'}
      let payload := if c.isServer then toggleMask payload h.MaskingKey else payload
      let statusCode := bigEndian16 (payload.getD 0 0) (payload.getD 1 0)
      if !validCloseFrameCodes statusCode &&
          (statusCode < minNonCloseStatusCode || statusCode > maxNonCloseStatusCode) then
        finish st (.error .badMessage)
      else
        let payload := if payload.length ≤ 2 then [] else payload.drop 2
        if payload.length > 0 && !utf8Valid payload then
          finish st (.error .badMessage)
        else
          let (st1, _) := sendControl CloseFrame statusCode payload st
          finish st1 (.error .normalClose)

/-- Embeds `handlePingFrame` (`part_002`). -/
def handlePingFrame (c : ConnModel) (h : Headers) (st : EngineState) :
    EngineState × Except WsErr (List Nat) :=
  if h.PayloadLength > maxControlFramePayloadSize then (st, .error .badMessage)
  else if !h.FIN then (st, .error .badMessage)
  else if h.RSV1 then (st, .error .badMessage)
  else
    match connRead h.PayloadLength st.stream with
    | none => (st, .error .eof)
    | some (payload, s') =>
      let st := {st with stream := s'}
      let payload := if c.isServer then toggleMask payload h.MaskingKey else payload
      let (st1, werr) := sendControl PongFrame 0 payload st
      match werr with
      | some e => (st1, .error e)
      | none => (st1, .ok payload)

/-- Embeds `handlePongFrame` (`part_002`). -/
def handlePongFrame (_ : ConnModel) (h : Headers) (st : EngineState) :
    EngineState × Except WsErr (List Nat) :=
  if h.PayloadLength > maxControlFramePayloadSize then (st, .error .badMessage)
  else if !h.FIN then (st, .error .badMessage)
  else if h.RSV1 then (st, .error .badMessage)
  else
    match connRead h.PayloadLength st.stream with
    | none => (st, .error .eof)
    | some (payload, s') => ({st with stream := s'}, .ok payload)

/-- Embeds `handleSingleFrame` (`part_002`). -/
def handleSingleFrame (c : ConnModel) (h : Headers) (st : EngineState) :
    EngineState × Except WsErr (List Nat) :=
  if h.Opcode = TextMessage then handleTextMessage c h st
  else if h.Opcode = BinaryMessage || h.Opcode = ContinuationFrame then
    handleBinaryMessage c h st
  else if h.Opcode = CloseFrame then handleCloseFrame c h st
  else if h.Opcode = PingFrame then handlePingFrame c h st
  else if h.Opcode = PongFrame then handlePongFrame c h st
  else (st, .error .badMessage)

/-- Embeds `handleSingleFrameErr` (`part_002`). -/
def handleSingleFrameErr (e : WsErr) (st : EngineState) :
    EngineState × Except WsErr (Nat × List Nat) :=
  if isEOF e then (st, .error .unexpectedClose)
  else if e = .utf8 then closeWithErr CloseMistachedPayloadData st
  else if e = .badMessage then closeWithErr CloseProtocolError st
  else (st, .error e)

/-- Embeds `checkRSV1` (`part_002`): `true` means the RSV1 bit is rejected. -/
def checkRSV1 (c : ConnModel) (h : Headers) : Bool :=
  if !c.ccEnabled then true
  else if h.Opcode ≠ TextMessage && h.Opcode ≠ BinaryMessage then true
  else false

/-- The steps of `NextMessage` (`part_002`) from the top of the inner
fragment loop onward: collect continuation fragments (answering interleaved
pings), then inflate the assembled message when the initial fragment carried
RSV1, then UTF-8-validate text, then deliver.  `initialHeaders` is the first
fragment's header, `acc` the payload assembled so far.  The `fuel` bounds
the number of loop iterations; `none` means it ran out, which no theorem
relies on. -/
def fragLoop (c : ConnModel) (initialHeaders : Headers) :
    Nat → EngineState → List Nat →
    Option (EngineState × Except WsErr (Nat × List Nat))
  | 0, _, _ => none
  | fuel + 1, st, acc =>
    match parseFrameHeaders st.stream with
    | none => some (st, .error .unexpectedClose)
    | some (nextHeaders, s') =>
      let st := {st with stream := s'}
      if nextHeaders.Opcode ≠ ContinuationFrame && !isControlFrame nextHeaders.Opcode then
        some (closeWithErr CloseProtocolError st)
      else if !initialHeaders.RSV1 && nextHeaders.RSV1 then
        some (closeWithErr CloseProtocolError st)
      else
        match handleSingleFrame c nextHeaders st with
        | (st, .error e) => some (handleSingleFrameErr e st)
        | (st, .ok nextPayload) =>
          if isPingPongFrame nextHeaders.Opcode then fragLoop c initialHeaders fuel st acc
          else
            let acc := acc ++ nextPayload
            if nextHeaders.FIN then
              match (if c.ccEnabled && initialHeaders.RSV1 then c.inflate acc else some acc) with
              | none => some (closeWithErr CloseInternalServerErr st)
              | some acc =>
                if initialHeaders.Opcode = TextMessage && !utf8Valid acc then
                  some (closeWithErr CloseMistachedPayloadData st)
                else some (st, .ok (initialHeaders.Opcode, acc))
            else fragLoop c initialHeaders fuel st acc

/-- The outer loop of `NextMessage` (`part_002`). -/
def nextMessageLoop (c : ConnModel) :
    Nat → EngineState → Option (EngineState × Except WsErr (Nat × List Nat))
  | 0, _ => none
  | fuel + 1, st =>
    match parseFrameHeaders st.stream with
    | none => some (st, .error .unexpectedClose)
    | some (initialHeaders, s') =>
      let st := {st with stream := s'}
      if (initialHeaders.RSV1 && checkRSV1 c initialHeaders) ||
          initialHeaders.RSV2 || initialHeaders.RSV3 then
        some (closeWithErr CloseProtocolError st)
      else if initialHeaders.Mask ≠ c.isServer then
        some (closeWithErr CloseProtocolError st)
      else
        match handleSingleFrame c initialHeaders st with
        | (st, .error e) => some (handleSingleFrameErr e st)
        | (st, .ok initialPayload) =>
          if isPingPongFrame initialHeaders.Opcode then nextMessageLoop c fuel st
          else if initialHeaders.Opcode = ContinuationFrame then
            some (closeWithErr CloseProtocolError st)
          else if initialHeaders.FIN then
            some (st, .ok (initialHeaders.Opcode, initialPayload))
          else fragLoop c initialHeaders fuel st initialPayload

/-- Embeds `Conn.NextMessage` (`part_002`).  Every loop iteration consumes at least
the two fixed header bytes, so `stream.length + 1` iterations always
suffice. -/
def NextMessage (c : ConnModel) (st : EngineState) :
    Option (EngineState × Except WsErr (Nat × List Nat)) :=
  nextMessageLoop c (st.stream.length + 1) st

/-- Embeds `Conn.SendMessage` (`part_002`).  `maskingKey` stands for the fresh
random key of `makeMaskingKey`; the result is the byte buffer handed to the
single `netConn.Write`. -/
def SendMessage (c : ConnModel) (maskingKey : List Nat) (payload : List Nat) (mt : Nat) :
    Except WsErr (List Nat) :=
  if mt ≠ TextMessage && mt ≠ BinaryMessage then .error .invalidMessageType
  else
    let shouldCompress := c.ccEnabled && payload.length > c.compressionThreshold
    match (if shouldCompress then c.deflate payload else some payload) with
    | none => .error .deflateFail
    | some payload =>
      let buf := makeFrameHeadersBuf
        ⟨true, shouldCompress, false, false, mt, !c.isServer, payload.length, maskingKey⟩
      let payload := if !c.isServer then toggleMask payload maskingKey else payload
      .ok (buf ++ payload)

/-- The lifecycle state `Conn.Close` (`part_002`) reads and writes, plus
the pool effects of `flatter.Close` (`flate.go`): the flate reader, the
flate writer, and (with context takeover) the sliding window are returned
to their process-wide pools. -/
structure CloseState where
  closed : Bool
  netClosed : Bool
  hasFlatter : Bool
  isContextTakeover : Bool
deriving Repr, DecidableEq

/-- The pool returns performed by `flatter.Close` (`flate.go`). -/
def flatterCloseReturns (isContextTakeover : Bool) : List String :=
  ["flateReader", "flateWriter"] ++ (if isContextTakeover then ["slidingWindow"] else [])

/-- Embeds `Conn.Close` (`part_002`): the close-frame writes attempted (status code
and whether the stream was open), the pool returns performed, and the
resulting lifecycle state.  The source never sets `c.closed` here. -/
def ConnClose (isServer : Bool) (s : CloseState) :
    CloseState × List (Nat × Bool) × List String :=
  let (s, writes) :=
    if !s.closed then
      ({s with netClosed := true},
        [((if isServer then CloseGoingAway else CloseNormal), !s.netClosed)])
    else (s, [])
  let puts := if s.hasFlatter then flatterCloseReturns s.isContextTakeover else []
  (s, writes, puts)

/-! ## C3: RSV1 on continuation frames -/

/-- C3 counterexample: a client connection with compression enabled receives
a non-final Text fragment with RSV1 set (byte `0x41`, empty payload) followed
by a final continuation frame that also carries RSV1 (byte `0xC0`, empty
payload).  The claim says every RSV1-carrying continuation is answered with
close 1002 and the protocol-violation error; the engine instead accepts the
frame, sends nothing, stays open, and delivers the message (here with the
identity standing in for the inflater). -/
theorem continuation_rsv1_accepted_after_compressed_first_fragment :
    NextMessage ⟨false, true, 0, fun l => some l, fun _ => none⟩ ⟨[65, 0, 192, 0], [], false, false⟩
      = some (⟨[], [], false, false⟩, .ok (1, [])) := by
  rfl

/-- C3 amended: a continuation frame carrying RSV1 while a fragmented
message is being assembled is a protocol violation (close 1002,
`ErrBadMessage`) precisely when the message's first fragment did not carry
RSV1.  Stated on a client connection with compression enabled receiving an
empty non-final Text fragment (RSV1 = `r1`) followed by an empty final
continuation (RSV1 = `r2`, wire bytes `0xC0 0x00` when set, `0x80 0x00`
when clear): when `r1` is clear and `r2` set the engine closes with 1002
and returns the protocol-violation error, for every behaviour of the
external inflater; when `r1` is set the continuation's RSV1 is not
rejected — with a succeeding inflater the message is delivered with no
close frame at all, and with a failing inflater the failure surfaces as
the inflate error or as close 1011, never as close 1002. -/
theorem continuation_rsv1_rejected_iff_initial_clear
    (inflate : List Nat → Option (List Nat)) (r1 r2 : Bool) :
    (r1 = false → r2 = true →
      NextMessage ⟨false, true, 0, inflate, fun _ => none⟩
          ⟨[(if r1 then 65 else 1), 0, (if r2 then 192 else 128), 0], [], false, false⟩
        = some (⟨[], [(CloseFrame, CloseProtocolError, [], true)], true, true⟩,
            .error .badMessage)) ∧
    (r1 = true →
      NextMessage ⟨false, true, 0, fun l => some l, fun _ => none⟩
          ⟨[65, 0, (if r2 then 192 else 128), 0], [], false, false⟩
        = some (⟨[], [], false, false⟩, .ok (TextMessage, []))) ∧
    (r1 = true →
      NextMessage ⟨false, true, 0, fun _ => none, fun _ => none⟩
          ⟨[65, 0, (if r2 then 192 else 128), 0], [], false, false⟩
        = some (if r2 then (⟨[], [], false, false⟩, .error .inflateFail)
            else (⟨[], [(CloseFrame, CloseInternalServerErr, [], true)], true, true⟩,
              .error .badMessage))) := by
  refine ⟨?_, ?_, ?_⟩
  · rintro rfl rfl
    rfl
  · rintro rfl
    cases r2 <;> rfl
  · rintro rfl
    cases r2 <;> rfl

/-- Witness for `continuation_rsv1_rejected_iff_initial_clear`: the
rejection branch at the identity inflater. -/
theorem continuation_rsv1_rejected_iff_initial_clear_witness :
    NextMessage ⟨false, true, 0, fun l => some l, fun _ => none⟩
        ⟨[1, 0, 192, 0], [], false, false⟩
      = some (⟨[], [(CloseFrame, CloseProtocolError, [], true)], true, true⟩,
          .error .badMessage) := by
  have := (continuation_rsv1_rejected_iff_initial_clear (fun l => some l) false true).1 rfl rfl
  simpa using this

/-! ## C4: compression threshold on the send path -/

/-- C4 counterexample: compression enabled with threshold 1 on a server
connection; a Text payload of length exactly 1 (so `len ≥ threshold` in the
claim's sense) is written uncompressed — the wire is header `0x81 0x01`
(FIN set, RSV1 clear) followed by the raw byte — even though the configured
deflater would have produced output `[]`. -/
theorem sendMessage_at_threshold_not_compressed :
    (1 : Nat) ≥ 1 ∧
    SendMessage ⟨true, true, 1, fun _ => none, fun _ => some []⟩ [0, 0, 0, 0] [97] TextMessage
      = .ok [129, 1, 97] ∧
    readToBool 129 rsv1Mask = false := by
  exact ⟨Nat.le_refl 1, rfl, rfl⟩

/-- C4 amended: with compression enabled, `SendMessage` deflates and sets
RSV1 iff the payload length is strictly greater than the configured
threshold; payloads of length at most the threshold are written uncompressed
with RSV1 clear. -/
theorem sendMessage_compresses_iff_strictly_above_threshold
    (isServer : Bool) (thr : Nat) (deflate : List Nat → Option (List Nat))
    (key payload deflated : List Nat) (mt : Nat)
    (hmt : mt = TextMessage ∨ mt = BinaryMessage)
    (hdef : payload.length > thr → deflate payload = some deflated) :
    SendMessage ⟨isServer, true, thr, fun _ => none, deflate⟩ key payload mt
      = .ok (makeFrameHeadersBuf ⟨true, decide (payload.length > thr), false, false, mt,
          !isServer, (if payload.length > thr then deflated else payload).length, key⟩ ++
        (if isServer then (if payload.length > thr then deflated else payload)
         else toggleMask (if payload.length > thr then deflated else payload) key)) := by
  have hmt1 : (mt ≠ TextMessage && mt ≠ BinaryMessage) = false := by
    rcases hmt with rfl | rfl <;> simp
  unfold SendMessage
  rw [hmt1]
  by_cases hc : payload.length > thr
  · simp only [Bool.true_and, decide_eq_true hc, if_true, hdef hc, if_pos hc]
    cases isServer <;> simp
  · simp only [Bool.true_and, decide_eq_false hc, if_false, if_neg hc]
    cases isServer <;> simp

/-- Witness for `sendMessage_compresses_iff_strictly_above_threshold`:
server role, threshold 0, a 1-byte Text payload, a deflater returning
`[5, 6]`. -/
theorem sendMessage_compresses_iff_strictly_above_threshold_witness :
    SendMessage ⟨true, true, 0, fun _ => none, fun _ => some [5, 6]⟩ [0, 0, 0, 0] [97] TextMessage
      = .ok [193, 2, 5, 6] := by
  have := sendMessage_compresses_iff_strictly_above_threshold true 0 (fun _ => some [5, 6])
    [0, 0, 0, 0] [97] [5, 6] TextMessage (Or.inl rfl) (fun _ => rfl)
  simpa using this

/-! ## C9: Close is not idempotent -/

/-- C9: `Conn.Close` never sets `c.closed`, so a second call on a connection
whose close frame came from `Close` itself attempts another close-frame
write (now against the already-closed stream) and returns the flate reader,
flate writer and sliding window to their pools a second time.  The first
call does send the single going-away (1001) server close frame. -/
theorem close_second_call_repeats_effects :
    (ConnClose true ⟨false, false, true, true⟩).2.1 = [(CloseGoingAway, true)] ∧
    (ConnClose true ⟨false, false, true, true⟩).2.2
      = ["flateReader", "flateWriter", "slidingWindow"] ∧
    (ConnClose true (ConnClose true ⟨false, false, true, true⟩).1).2.1
      = [(CloseGoingAway, false)] ∧
    (ConnClose true (ConnClose true ⟨false, false, true, true⟩).1).2.2
      = ["flateReader", "flateWriter", "slidingWindow"] := by
  exact ⟨rfl, rfl, rfl, rfl⟩

/-- The emitted header bytes do not depend on the `MaskingKey` field when
the mask bit is clear (`makeFrameHeadersBuf` appends the key only under
`h.Mask`). -/
theorem makeFrameHeadersBuf_mask_false (h : Headers) (hm : h.Mask = false) :
    makeFrameHeadersBuf h = makeFrameHeadersBuf
      ⟨h.FIN, h.RSV1, h.RSV2, h.RSV3, h.Opcode, h.Mask, h.PayloadLength, []⟩ := by
  simp [makeFrameHeadersBuf, hm]

/-! ## C10: outbound messages are a single final frame -/

/-- C10: every successful `SendMessage` writes a single buffer holding a
single frame: the header has FIN set and a payload length equal to the whole
remaining buffer, and that remainder is the entire (possibly deflated,
masked when the role is client) message.  Parsing the written buffer
consumes the header and leaves exactly the message body. -/
theorem sendMessage_single_final_frame
    (isServer ccEnabled : Bool) (thr : Nat) (deflate : List Nat → Option (List Nat))
    (key payload deflated : List Nat) (mt : Nat)
    (hmt : mt = TextMessage ∨ mt = BinaryMessage)
    (hkey : key.length = 4)
    (hdef : (ccEnabled && decide (payload.length > thr)) = true →
      deflate payload = some deflated)
    (hlen : (if (ccEnabled && decide (payload.length > thr)) = true
        then deflated else payload).length ≤ 9223372036854775807) :
    SendMessage ⟨isServer, ccEnabled, thr, fun _ => none, deflate⟩ key payload mt
      = .ok (makeFrameHeadersBuf ⟨true, ccEnabled && decide (payload.length > thr),
          false, false, mt, !isServer,
          (if (ccEnabled && decide (payload.length > thr)) = true
            then deflated else payload).length, key⟩ ++
        (if isServer
          then (if (ccEnabled && decide (payload.length > thr)) = true
            then deflated else payload)
          else toggleMask (if (ccEnabled && decide (payload.length > thr)) = true
            then deflated else payload) key)) ∧
    parseFrameHeaders (makeFrameHeadersBuf ⟨true, ccEnabled && decide (payload.length > thr),
          false, false, mt, !isServer,
          (if (ccEnabled && decide (payload.length > thr)) = true
            then deflated else payload).length, key⟩ ++
        (if isServer
          then (if (ccEnabled && decide (payload.length > thr)) = true
            then deflated else payload)
          else toggleMask (if (ccEnabled && decide (payload.length > thr)) = true
            then deflated else payload) key))
      = some (⟨true, ccEnabled && decide (payload.length > thr), false, false, mt, !isServer,
          (if (ccEnabled && decide (payload.length > thr)) = true
            then deflated else payload).length,
          if isServer then [] else key⟩,
        (if isServer
          then (if (ccEnabled && decide (payload.length > thr)) = true
            then deflated else payload)
          else toggleMask (if (ccEnabled && decide (payload.length > thr)) = true
            then deflated else payload) key)) ∧
    (if isServer
      then (if (ccEnabled && decide (payload.length > thr)) = true
        then deflated else payload)
      else toggleMask (if (ccEnabled && decide (payload.length > thr)) = true
        then deflated else payload) key).length
      = (if (ccEnabled && decide (payload.length > thr)) = true
        then deflated else payload).length := by
  set body := (if (ccEnabled && decide (payload.length > thr)) = true
    then deflated else payload) with hbody
  have hmt16 : mt < 16 := by rcases hmt with rfl | rfl <;> decide
  have hbodyLen : (if isServer then body else toggleMask body key).length = body.length := by
    cases isServer
    · simp [toggleMask_length]
    · simp
  refine ⟨?_, ?_, hbodyLen⟩
  · have hmt1 : (mt ≠ TextMessage && mt ≠ BinaryMessage) = false := by
      rcases hmt with rfl | rfl <;> simp
    unfold SendMessage
    rw [hmt1]
    simp only [Bool.false_eq_true, if_false]
    cases hcc : (ccEnabled && decide (payload.length > thr)) with
    | false =>
      simp only [hcc] at hbody
      simp only [Bool.false_eq_true, if_false] at hbody ⊢
      cases isServer <;> simp [← hbody]
    | true =>
      simp only [hcc] at hbody
      simp only [if_true] at hbody
      simp only [hcc, hdef hcc]
      cases isServer <;> simp [← hbody]
  · have hctl : 8 ≤ mt → mt < 8 → False := by omega
    cases isServer
    · -- client role: the key is on the wire and parses back
      have hv : validHeaders ⟨true, ccEnabled && decide (payload.length > thr),
          false, false, mt, !false, body.length, key⟩ := by
        refine ⟨fun _ => hkey, ?_, hlen, hmt16, ?_⟩
        · intro hmask
          simp at hmask
        · intro h8
          rcases hmt with rfl | rfl <;> simp [TextMessage, BinaryMessage] at h8
      simpa using parseFrameHeaders_makeFrameHeadersBuf _ hv (toggleMask body key)
    · -- server role: no key on the wire, the parser reports the nil key
      have hv : validHeaders ⟨true, ccEnabled && decide (payload.length > thr),
          false, false, mt, !true, body.length, []⟩ := by
        refine ⟨?_, fun _ => rfl, hlen, hmt16, ?_⟩
        · intro hmask
          simp at hmask
        · intro h8
          rcases hmt with rfl | rfl <;> simp [TextMessage, BinaryMessage] at h8
      rw [makeFrameHeadersBuf_mask_false
        ⟨true, ccEnabled && decide (payload.length > thr), false, false, mt,
          !true, body.length, key⟩ (by rfl)]
      simpa using parseFrameHeaders_makeFrameHeadersBuf _ hv body

/-- Witness for `sendMessage_single_final_frame`: an uncompressed 2-byte
Binary message from the server role; the wire is `0x82 0x02` followed by the
whole payload, and parsing it back gives a final frame whose payload length
covers the whole remainder. -/
theorem sendMessage_single_final_frame_witness :
    SendMessage ⟨true, false, 0, fun _ => none, fun _ => none⟩ [1, 2, 3, 4] [7, 8] BinaryMessage
      = .ok [130, 2, 7, 8] ∧
    parseFrameHeaders [130, 2, 7, 8]
      = some (⟨true, false, false, false, 2, false, 2, []⟩, [7, 8]) := by
  have h := sendMessage_single_final_frame true false 0 (fun _ => none) [1, 2, 3, 4]
    [7, 8] [] BinaryMessage (Or.inr rfl) rfl (by simp) (by simp)
  exact ⟨h.1, h.2.1⟩

/-! ## C5: close frames with an invalid-UTF-8 reason -/

theorem land_small : ∀ b < 128, (b &&& 127 = b) ∧ (readToBool b 128 = false) := by
  decide

/-- Parsing a close-frame header `0x88` with a one-byte payload length and
no mask bit. -/
theorem parseFrameHeaders_close (b1 : Nat) (hb1 : b1 < 126) (rest : List Nat) :
    parseFrameHeaders (136 :: b1 :: rest)
      = some (⟨true, false, false, false, 8, false, b1, []⟩, rest) := by
  have hl := land_small b1 (by omega)
  unfold parseFrameHeaders
  rw [show (136 : Nat) :: b1 :: rest = [136, b1] ++ rest from rfl,
    peekDiscard_exact [136, b1] rest 2 rfl]
  simp only [List.getD_cons_zero, List.getD_cons_succ, payloadLengthMask, maskMask]
  rw [hl.1, hl.2]
  rw [if_neg (by omega), if_neg (by omega)]
  rfl

theorem connRead_all (s : List Nat) : connRead s.length s = some (s, []) := by
  unfold connRead
  rw [if_pos (Nat.le_refl _)]
  simp

/-- C5 amended: a close frame whose reason bytes (after the 2-byte status
code, here 1000) are not valid UTF-8 is treated as a *protocol violation*,
not as invalid payload data: the engine closes the connection and returns
`ErrBadMessage`, and the close frame it then tries to echo carries code 1002
and is attempted only after the stream has already been closed (so nothing
reaches the peer).  Neither close code 1007 nor `ErrUtf8` appears.  Stated
for a client connection; `r` ranges over every invalid-UTF-8 reason that
fits a control frame. -/
theorem close_reason_invalid_utf8_closes_with_1002 (r : List Nat)
    (hlen : r.length ≤ 123) (hr : utf8Valid r = false) :
    NextMessage ⟨false, false, 0, fun _ => none, fun _ => none⟩
        ⟨136 :: (2 + r.length) :: 3 :: 232 :: r, [], false, false⟩
      = some (⟨[], [(CloseFrame, CloseProtocolError, [], false)], true, true⟩,
          .error .badMessage) := by
  have hne : r ≠ [] := by
    intro h
    rw [h] at hr
    exact absurd hr (by decide)
  have hpos : 0 < r.length := List.length_pos.mpr hne
  have hparse := parseFrameHeaders_close (2 + r.length) (by omega) (3 :: 232 :: r)
  have hread : connRead (2 + r.length) (3 :: 232 :: r) = some (3 :: 232 :: r, []) := by
    have h := connRead_all (3 :: 232 :: r)
    rw [show (3 :: 232 :: r).length = 2 + r.length from by
      simp only [List.length_cons]; omega] at h
    exact h
  unfold NextMessage nextMessageLoop
  simp only [hparse]
  simp only [checkRSV1, handleSingleFrame, handleCloseFrame, handlePingFrame,
    handlePongFrame, handleTextMessage, handleBinaryMessage, TextMessage,
    BinaryMessage, ContinuationFrame, CloseFrame, PingFrame, PongFrame,
    maxControlFramePayloadSize, isPingPongFrame]
  norm_num
  rw [if_neg (by omega)]
  simp only [hread, List.getElem?_cons_zero, List.getElem?_cons_succ, Option.getD_some]
  norm_num [bigEndian16, validCloseFrameCodes, minNonCloseStatusCode, maxNonCloseStatusCode]
  rw [show (if r.length + 1 + 1 ≤ 2 then ([] : List Nat) else r) = r from if_neg (by omega)]
  rw [if_pos ⟨hpos, hr⟩]
  simp [handleSingleFrameErr, isEOF, closeWithErr, sendControl, CloseProtocolError,
    CloseMistachedPayloadData, CloseFrame]

/-- Witness for `close_reason_invalid_utf8_closes_with_1002` at the reason
byte `0xFF`. -/
theorem close_reason_invalid_utf8_closes_with_1002_witness :
    NextMessage ⟨false, false, 0, fun _ => none, fun _ => none⟩
        ⟨[136, 3, 3, 232, 255], [], false, false⟩
      = some (⟨[], [(CloseFrame, CloseProtocolError, [], false)], true, true⟩,
          .error .badMessage) := by
  have := close_reason_invalid_utf8_closes_with_1002 [255] (by decide) (by decide)
  simpa using this

/-- C5 counterexample: on the concrete close frame carrying status 1000 and
the invalid-UTF-8 reason byte `0xFF`, the engine returns the
protocol-violation error `ErrBadMessage` (and its close attempt carries code
1002, after the stream is closed) — not close 1007 with `ErrUtf8` as the
claim states; the two errors are distinct values. -/
theorem close_reason_invalid_utf8_not_1007 :
    NextMessage ⟨false, false, 0, fun _ => none, fun _ => none⟩
        ⟨[136, 3, 3, 232, 255], [], false, false⟩
      = some (⟨[], [(CloseFrame, CloseProtocolError, [], false)], true, true⟩,
          .error .badMessage) ∧
    WsErr.badMessage ≠ WsErr.utf8 ∧ CloseProtocolError ≠ CloseMistachedPayloadData := by
  exact ⟨rfl, by decide, by decide⟩

/-! ## Subprotocol negotiation (`conn.go` Upgrader, `util.go`/`part_001`) -/

/-- Embeds `strings.Fields`: split a string around runs of whitespace (the header
tokens only ever involve the space character), dropping empty pieces.
`cur` accumulates the current field's characters in reverse. -/
def goFields (cur : List Char) : List Char → List String
  | [] => if cur = [] then [] else [String.mk cur.reverse]
  | c :: cs =>
    if c = ' ' then
      if cur = [] then goFields [] cs else String.mk cur.reverse :: goFields [] cs
    else goFields (c :: cur) cs

/-- Embeds `strings.TrimSpace` (leading and trailing spaces). -/
def trimSpace (s : String) : String :=
  String.mk (((s.data.dropWhile (fun c => c = ' ')).reverse.dropWhile
    (fun c => c = ' ')).reverse)

/-- Embeds `splitHeaderValuesBySpace` (`util.go`/`part_001`): `strings.Fields` on
each header value, then a (redundant) `TrimSpace` on each field, all
concatenated. -/
def splitHeaderValuesBySpace (strList : List String) : List String :=
  strList.foldl
    (fun splitted str => splitted ++ (goFields [] str.data).map trimSpace)
    []

/-- The `for ... slices.Contains` loop of `selectSubprotocol` (`conn.go`):
returns the first of the client's tokens contained in the server's
preference list. -/
def selectSubprotocolLoop (supported : List String) : List String → String
  | [] => ""
  | protocol :: rest =>
    if supported.contains protocol then protocol
    else selectSubprotocolLoop supported rest

/-- Embeds `Upgrader.selectSubprotocol` (`conn.go`): `supported` is
`Upgrader.Subprotocols`, `headerValues` the values of the client's
`Sec-WebSocket-Protocol` header. -/
def selectSubprotocol (supported : List String) (headerValues : List String) : String :=
  selectSubprotocolLoop supported (splitHeaderValuesBySpace headerValues)

/-- The claim's (and spec's) selection rule, for comparison: first match
obtained by walking the *server's* preference list against the client's
token set. -/
def specSelectSubprotocol (supported : List String) (headerValues : List String) : String :=
  match supported.find? (fun p => (splitHeaderValuesBySpace headerValues).contains p) with
  | some p => p
  | none => ""

/-- The chunks `upgradeConnection` (`conn.go`) appends to the 101 response:
status line, fixed upgrade headers, the accept key, the subprotocol line
only when one was selected, the extension acknowledgment when compression
was negotiated, and the final blank line. -/
def handshakeChunks (newKey subprotocol : String) (ext : Option String) : List String :=
  ["HTTP/1.1 101 Switching Protocols\r\n",
   "Upgrade: websocket\r\nConnection: Upgrade\r\n",
   "Sec-WebSocket-Accept: " ++ newKey ++ "\r\n"] ++
  (if subprotocol ≠ "" then ["Sec-WebSocket-Protocol: " ++ subprotocol ++ "\r\n"] else []) ++
  (match ext with
   | some e => ["Sec-WebSocket-Extensions: " ++ e]
   | none => []) ++
  ["\r\n"]

/-- C6 counterexample: server preference list `["a", "b"]`, client tokens
`"b a"`.  Walking the server's list (the claim's rule) selects `"a"`, but
the code walks the client's token list and selects `"b"`. -/
theorem selectSubprotocol_not_server_preference :
    selectSubprotocol ["a", "b"] ["b a"] = "b" ∧
    specSelectSubprotocol ["a", "b"] ["b a"] = "a" ∧
    selectSubprotocol ["a", "b"] ["b a"] ≠ specSelectSubprotocol ["a", "b"] ["b a"] := by
  refine ⟨by decide, by decide, by decide⟩

/-- C6 amended: the negotiated subprotocol is the first match obtained by
walking the *client's* token list (in the client's order) against the
server's preference set; if no token matches, the selection is empty and
the 101 response contains no `Sec-WebSocket-Protocol` chunk. -/
theorem selectSubprotocol_first_client_match :
    (∀ supported headerValues,
      selectSubprotocol supported headerValues
        = ((splitHeaderValuesBySpace headerValues).find?
            (fun t => supported.contains t)).getD "") ∧
    (∀ newKey ext, handshakeChunks newKey "" ext
      = ["HTTP/1.1 101 Switching Protocols\r\n",
         "Upgrade: websocket\r\nConnection: Upgrade\r\n",
         "Sec-WebSocket-Accept: " ++ newKey ++ "\r\n"] ++
        (match ext with
         | some e => ["Sec-WebSocket-Extensions: " ++ e]
         | none => []) ++
        ["\r\n"]) := by
  constructor
  · intro supported headerValues
    unfold selectSubprotocol
    induction splitHeaderValuesBySpace headerValues with
    | nil => rfl
    | cons p rest ih =>
      unfold selectSubprotocolLoop
      rw [List.find?_cons]
      cases h : supported.contains p
      · simpa [h] using ih
      · simp [h]
  · intro newKey ext
    simp [handshakeChunks]

/-- Witness for `selectSubprotocol_first_client_match` at concrete inputs. -/
theorem selectSubprotocol_first_client_match_witness :
    selectSubprotocol ["chat", "superchat"] ["superchat chat"] = "superchat" ∧
    handshakeChunks "k" "" none
      = ["HTTP/1.1 101 Switching Protocols\r\n",
         "Upgrade: websocket\r\nConnection: Upgrade\r\n",
         "Sec-WebSocket-Accept: k\r\n", "\r\n"] := by
  constructor
  · rw [selectSubprotocol_first_client_match.1 ["chat", "superchat"] ["superchat chat"]]
    decide
  · rw [selectSubprotocol_first_client_match.2 "k" none]
    rfl

/-! ## Challenge-key hash (`part_001` `makeKeyHash`)

`makeKeyHash` concatenates the key with the fixed GUID, hashes with SHA-1
(`crypto/sha1`, FIPS 180-4) and Base64-encodes the 20-byte digest
(`encoding/base64` standard alphabet).  SHA-1 and Base64 are Go standard
library; they are implemented here from their specifications so the fixed
RFC 6455 test vector can be evaluated. -/

/-- Left-rotate a 32-bit word by `n`. -/
def rotl32 (n x : Nat) : Nat :=
  ((x <<< n) ||| (x >>> (32 - n))) % 4294967296

/-- The SHA-1 round function. -/
def sha1F (t b c d : Nat) : Nat :=
  if t < 20 then (b &&& c) ||| ((b ^^^ 4294967295) &&& d)
  else if t < 40 then b ^^^ c ^^^ d
  else if t < 60 then (b &&& c) ||| (b &&& d) ||| (c &&& d)
  else b ^^^ c ^^^ d

/-- The SHA-1 round constants. -/
def sha1K (t : Nat) : Nat :=
  if t < 20 then 1518500249
  else if t < 40 then 1859775393
  else if t < 60 then 2400959708
  else 3395469782

/-- The 16 big-endian words of a 64-byte block. -/
def blockWords : List Nat → List Nat
  | b0 :: b1 :: b2 :: b3 :: rest => word32 b0 b1 b2 b3 :: blockWords rest
  | _ => []

/-- Extend the 16 block words to the 80-word message schedule. -/
def sha1ExpandAux : Nat → List Nat → List Nat
  | 0, ws => ws
  | n + 1, ws =>
    let t := ws.length
    let w := rotl32 1 (ws.getD (t - 3) 0 ^^^ ws.getD (t - 8) 0 ^^^
      ws.getD (t - 14) 0 ^^^ ws.getD (t - 16) 0)
    sha1ExpandAux n (ws ++ [w])

/-- One SHA-1 compression over a 64-byte block. -/
def sha1Compress (st : Nat × Nat × Nat × Nat × Nat) (block : List Nat) :
    Nat × Nat × Nat × Nat × Nat :=
  let ws := sha1ExpandAux 64 (blockWords block)
  let step := fun (s : Nat × Nat × Nat × Nat × Nat) (t : Nat) =>
    let (a, b, c, d, e) := s
    let temp := (rotl32 5 a + sha1F t b c d + e + sha1K t + ws.getD t 0) % 4294967296
    (temp, a, rotl32 30 b, c, d)
  let (a, b, c, d, e) := (List.range 80).foldl step st
  ((st.1 + a) % 4294967296, (st.2.1 + b) % 4294967296, (st.2.2.1 + c) % 4294967296,
    (st.2.2.2.1 + d) % 4294967296, (st.2.2.2.2 + e) % 4294967296)

/-- MD-strengthening padding: `0x80`, zeros to 56 mod 64, the bit length. -/
def sha1Pad (msg : List Nat) : List Nat :=
  msg ++ [128] ++ List.replicate ((55 + 64 - msg.length % 64) % 64) 0 ++
    putUint64 (msg.length * 8)

/-- Fold the compression over the given number of 64-byte blocks. -/
def sha1Blocks : Nat → (Nat × Nat × Nat × Nat × Nat) → List Nat →
    Nat × Nat × Nat × Nat × Nat
  | 0, st, _ => st
  | n + 1, st, l => sha1Blocks n (sha1Compress st (l.take 64)) (l.drop 64)

/-- The SHA-1 digest (20 bytes) of a byte sequence. -/
def sha1 (msg : List Nat) : List Nat :=
  let padded := sha1Pad msg
  let st := sha1Blocks (padded.length / 64)
    (1732584193, 4023233417, 2562383102, 271733878, 3285377520) padded
  word32Bytes st.1 ++ word32Bytes st.2.1 ++ word32Bytes st.2.2.1 ++
    word32Bytes st.2.2.2.1 ++ word32Bytes st.2.2.2.2

/-- The Base64 standard alphabet (`encoding/base64.StdEncoding`). -/
def base64Chars : List Char :=
  "ABCDEFGHIJKLMNOPQRSTUVWXYZabcdefghijklmnopqrstuvwxyz0123456789+/".data

/-- Base64 encoding with `=` padding, three input bytes at a time. -/
def base64EncodeChars : List Nat → List Char
  | b0 :: b1 :: b2 :: rest =>
    base64Chars.getD (b0 / 4) 'A' ::
    base64Chars.getD (b0 % 4 * 16 + b1 / 16) 'A' ::
    base64Chars.getD (b1 % 16 * 4 + b2 / 64) 'A' ::
    base64Chars.getD (b2 % 64) 'A' :: base64EncodeChars rest
  | [b0, b1] =>
    [base64Chars.getD (b0 / 4) 'A', base64Chars.getD (b0 % 4 * 16 + b1 / 16) 'A',
     base64Chars.getD (b1 % 16 * 4) 'A', '=']
  | [b0] =>
    [base64Chars.getD (b0 / 4) 'A', base64Chars.getD (b0 % 4 * 16) 'A', '=', '=']
  | [] => []

/-- Embeds `base64.StdEncoding.EncodeToString`. -/
def base64Encode (bs : List Nat) : String := String.mk (base64EncodeChars bs)

/-- Embeds `KEY_GUID` (`part_001`). -/
def KEY_GUID : String := "258EAFA5-E914-47DA-95CA-C5AB0DC85B11"

/-- The UTF-8 bytes of an ASCII string. -/
def strBytes (s : String) : List Nat := s.data.map Char.toNat

/-- Embeds `makeKeyHash` (`part_001`): `base64(SHA1(key || KEY_GUID))`. -/
def makeKeyHash (key : String) : String :=
  base64Encode (sha1 (strBytes (key ++ KEY_GUID)))

set_option maxRecDepth 10000 in
/-- C7: the RFC 6455 test vector: the handshake's accept value for the key
`dGhlIHNhbXBsZSBub25jZQ==` is exactly `s3pPLMBiTxaQ9kYGzzhZRbK+xOo=`, and
that value is what the 101 response's `Sec-WebSocket-Accept` chunk
carries. -/
theorem makeKeyHash_rfc6455_vector :
    makeKeyHash "dGhlIHNhbXBsZSBub25jZQ==" = "s3pPLMBiTxaQ9kYGzzhZRbK+xOo=" ∧
    ("Sec-WebSocket-Accept: s3pPLMBiTxaQ9kYGzzhZRbK+xOo=\r\n")
      ∈ handshakeChunks (makeKeyHash "dGhlIHNhbXBsZSBub25jZQ==") "" none := by
  refine ⟨by decide, ?_⟩
  rw [show makeKeyHash "dGhlIHNhbXBsZSBub25jZQ==" = "s3pPLMBiTxaQ9kYGzzhZRbK+xOo="
    from by decide]
  simp [handshakeChunks]

/-! ## Sliding window (`flate.go`) -/

/-- A Go byte slice `sw.buf`: the live contents (`buf[0:len]`) and the
backing array's capacity. -/
structure slidingWindow where
  data : List Nat
  cap : Nat
deriving Repr, DecidableEq

/-- Go's built-in `copy(dst, src)`: overwrites the first
`min(len(dst), len(src))` elements of `dst` and leaves its length
unchanged. -/
def goCopy (dst src : List Nat) : List Nat :=
  src.take (min dst.length src.length) ++ dst.drop (min dst.length src.length)

/-- Embeds `slidingWindow.write` (`flate.go`). -/
def slidingWindow.write (sw : slidingWindow) (p : List Nat) : slidingWindow :=
  if p.length ≥ sw.cap then
    { sw with data := goCopy sw.data (p.drop (p.length - sw.cap)) }
  else
    let spaceLeft := sw.cap - sw.data.length
    let sw' :=
      if p.length > spaceLeft then
        let spaceNeeded := p.length - spaceLeft
        let shifted :=
          (goCopy sw.data (sw.data.drop spaceNeeded)).take (sw.data.length - spaceNeeded)
        { sw with data := shifted }
      else sw
    { sw' with data := sw'.data ++ p }

/-- Embeds `getSlidingWindow` (`flate.go`) on a pool miss: `make([]byte, 32*1024)`
gives a buffer whose *length* (not just capacity) is 32 KiB, all zeros. -/
def getSlidingWindowFresh : slidingWindow :=
  ⟨List.replicate 32768 0, 32768⟩

/-- Embeds `putSlidingWindow` (`flate.go`): `sw.buf = sw.buf[:0]`. -/
def putSlidingWindow (sw : slidingWindow) : slidingWindow := ⟨[], sw.cap⟩

/-- The most recent `n` elements. -/
def lastN (n : Nat) (l : List Nat) : List Nat := l.drop (l.length - n)

theorem goCopy_length (dst src : List Nat) : (goCopy dst src).length = dst.length := by
  simp only [goCopy, List.length_append, List.length_take, List.length_drop]
  omega

theorem goCopy_full (dst src : List Nat) (h : dst.length ≤ src.length) :
    goCopy dst src = src.take dst.length := by
  unfold goCopy
  rw [Nat.min_eq_left h, List.drop_length]
  simp

theorem goCopy_src_short (dst src : List Nat) (h : src.length ≤ dst.length) :
    goCopy dst src = src ++ dst.drop src.length := by
  unfold goCopy
  rw [Nat.min_eq_right h, List.take_length]

/-- In the steady regime where the live slice fills the whole capacity,
every write keeps the buffer exactly full. -/
theorem slidingWindow.write_length_of_full (sw : slidingWindow) (p : List Nat)
    (h : sw.data.length = sw.cap) : ((sw.write p).data).length = sw.cap := by
  unfold slidingWindow.write
  by_cases h1 : p.length ≥ sw.cap
  · rw [if_pos h1]
    rw [show ({ sw with data := goCopy sw.data (p.drop (p.length - sw.cap)) } :
      slidingWindow).data = goCopy sw.data (p.drop (p.length - sw.cap)) from rfl]
    rw [goCopy_length]
    exact h
  · rw [if_neg h1]
    dsimp only
    by_cases h2 : p.length > sw.cap - sw.data.length
    · rw [if_pos h2]
      simp only [List.length_append, List.length_take, goCopy_length, List.length_drop]
      omega
    · rw [if_neg h2]
      simp only [List.length_append]
      omega

/-- C8 counterexample: a freshly acquired (pool-miss) window starts as
32 KiB of zeros, so after its first 1-byte write the buffer holds 32768
bytes (32767 zeros and the output byte) — not `min(1, 32768) = 1` bytes of
inflated output as the claim states. -/
theorem slidingWindow_fresh_first_write_not_min :
    (getSlidingWindowFresh.write [1]).data.length = 32768 ∧
    min 1 32768 = 1 ∧
    (getSlidingWindowFresh.write [1]).data ≠ [1] := by
  have hlen : (getSlidingWindowFresh.write [1]).data.length = 32768 :=
    slidingWindow.write_length_of_full getSlidingWindowFresh [1]
      (by simp only [getSlidingWindowFresh, List.length_replicate])
  refine ⟨hlen, rfl, fun h => ?_⟩
  rw [h] at hlen
  exact absurd hlen (by decide)

set_option maxRecDepth 8192 in
/-- C8 amended: a freshly created window starts as 32 KiB of zeros, and
from then on each write keeps exactly the most recent 32 KiB of the
zero-initialized prefix followed by all inflated output produced so far:
if the window holds `lastN 32768 (zeros ++ acc)` then writing `p` leaves it
holding `lastN 32768 (zeros ++ acc ++ p)`.  (The claim's
`min(total output, 32 KiB)` shape holds only for the re-pooled empty
state, and there only for writes smaller than 32 KiB.) -/
theorem slidingWindow_write_fresh_invariant (acc p : List Nat) :
    slidingWindow.write ⟨lastN 32768 (List.replicate 32768 0 ++ acc), 32768⟩ p
      = ⟨lastN 32768 (List.replicate 32768 0 ++ (acc ++ p)), 32768⟩ := by
  have hXlen : 32768 ≤ (List.replicate 32768 0 ++ acc).length := by
    simp only [List.length_append, List.length_replicate]
    omega
  set X := List.replicate 32768 0 ++ acc with hX
  have hL : (lastN 32768 X).length = 32768 := by
    simp only [lastN, List.length_drop]
    omega
  have hassoc : List.replicate 32768 0 ++ (acc ++ p) = X ++ p := by
    rw [hX, List.append_assoc]
  rw [hassoc]
  unfold slidingWindow.write
  by_cases hp : p.length ≥ 32768
  · rw [if_pos (by simpa using hp)]
    have hsrc : (p.drop (p.length - 32768)).length = 32768 := by
      simp only [List.length_drop]
      omega
    have hcopy : goCopy (lastN 32768 X) (p.drop (p.length - 32768))
        = p.drop (p.length - 32768) := by
      rw [goCopy_full _ _ (by rw [hL, hsrc]), hL,
        List.take_of_length_le (Nat.le_of_eq hsrc)]
    have hlast : lastN 32768 (X ++ p) = p.drop (p.length - 32768) := by
      unfold lastN
      rw [List.length_append,
        show X.length + p.length - 32768 = X.length + (p.length - 32768) from by omega]
      exact List.drop_append _
    simp only [hcopy, hlast]
  · rw [if_neg (by simpa using hp)]
    dsimp only
    simp only [hL, Nat.sub_self]
    by_cases hp0 : p.length = 0
    · rw [if_neg (by omega)]
      have : p = [] := List.eq_nil_of_length_eq_zero hp0
      subst this
      simp only [List.append_nil]
    · rw [if_pos (by omega)]
      simp only [Nat.sub_zero]
      have hdropLen : ((lastN 32768 X).drop p.length).length = 32768 - p.length := by
        simp only [List.length_drop, hL]
      have hcopy : (goCopy (lastN 32768 X) ((lastN 32768 X).drop p.length)).take
          (32768 - p.length) = (lastN 32768 X).drop p.length := by
        rw [goCopy_src_short _ _ (by rw [hdropLen, hL]; omega)]
        rw [List.take_left' hdropLen]
      rw [hcopy]
      have harith : X.length - 32768 + p.length = X.length + p.length - 32768 := by omega
      have hdrop2 : (lastN 32768 X).drop p.length = X.drop (X.length + p.length - 32768) := by
        unfold lastN
        rw [List.drop_drop, harith]
      have hlast : lastN 32768 (X ++ p) = X.drop (X.length + p.length - 32768) ++ p := by
        unfold lastN
        rw [List.length_append, List.drop_append_eq_append_drop,
          show X.length + p.length - 32768 - X.length = 0 from by omega]
        rfl
      rw [hdrop2, hlast]

/-- Witness for `slidingWindow_write_fresh_invariant` at the first write of
a fresh window. -/
theorem slidingWindow_write_fresh_invariant_witness :
    slidingWindow.write ⟨lastN 32768 (List.replicate 32768 0 ++ []), 32768⟩ [5]
      = ⟨lastN 32768 (List.replicate 32768 0 ++ ([] ++ [5])), 32768⟩ :=
  slidingWindow_write_fresh_invariant [] [5]

end Websocket
